import Mathlib

/-!
Verification of the Document Management System's tenant-concurrency
admission control, processing orchestration, deletion/retention
lifecycle, retry policy and task routing, as a shallow embedding of the
TypeScript source (src/shared/concurrency.ts, src/shared/task-routing.ts,
src/workers/processing-orchestrator.ts, src/workers/retention-enforcement,
src/workers/hard-delete-worker.ts, src/api/delete-document handler and the
retry utility module).
-/

namespace DMS

/-! ### Tenant concurrency table (src/shared/concurrency.ts)

The DynamoDB item for one tenant is modelled as an `Option TenantRow`:
`none` when no item exists for the tenant, `some row` otherwise.  Counts
use `Int` so that the floor-at-zero behaviour of `decrementConcurrency`
is a provable property rather than an artefact of truncated `Nat`
subtraction. -/

def DEFAULT_CONCURRENCY_LIMIT : Int := 10

structure TenantRow where
  currentCount : Int
  concurrencyLimit : Int
deriving Repr, DecidableEq

structure ConcurrencyStatus where
  currentCount : Int
  limit : Int
  available : Int
deriving Repr, DecidableEq

/-- Builds the status record returned by the concurrency helpers:
available is computed as Math.max(0, limit - currentCount). -/
def mkStatus (c l : Int) : ConcurrencyStatus :=
  { currentCount := c, limit := l, available := max 0 (l - c) }

/-- JavaScript expression concurrencyLimit || DEFAULT_CONCURRENCY_LIMIT:
both undefined (here none) and 0 are falsy and yield the default. -/
def effectiveLimit : Option Int → Int
  | none => DEFAULT_CONCURRENCY_LIMIT
  | some l => if l = 0 then DEFAULT_CONCURRENCY_LIMIT else l

/-- getCurrentConcurrency: reads the item; a missing item or missing
attributes report count 0 and the default limit. -/
def getCurrentConcurrency : Option TenantRow → ConcurrencyStatus
  | none => mkStatus 0 DEFAULT_CONCURRENCY_LIMIT
  | some row => mkStatus row.currentCount row.concurrencyLimit

/-- Payload of ConcurrencyLimitExceededError. -/
structure LimitExceeded where
  currentCount : Int
  limit : Int
deriving Repr, DecidableEq

/-- incrementConcurrency: atomic UpdateItem with condition
attribute_not_exists(current_count) OR current_count < concurrency_limit,
update SET current_count = if_not_exists(current_count, 0) + 1 and
concurrency_limit = if_not_exists(concurrency_limit, limit).  On a
ConditionalCheckFailedException the current status is read back and a
ConcurrencyLimitExceededError carrying it is thrown; the item is
unchanged.  The returned pair is (new table state, outcome). -/
def incrementConcurrency (st : Option TenantRow) (concurrencyLimit : Option Int) :
    Option TenantRow × Except LimitExceeded ConcurrencyStatus :=
  let limit := effectiveLimit concurrencyLimit
  match st with
  | none =>
      (some { currentCount := 1, concurrencyLimit := limit },
       .ok (mkStatus 1 limit))
  | some row =>
      if row.currentCount < row.concurrencyLimit then
        (some { currentCount := row.currentCount + 1,
                concurrencyLimit := row.concurrencyLimit },
         .ok (mkStatus (row.currentCount + 1) row.concurrencyLimit))
      else
        (st, .error { currentCount := (getCurrentConcurrency st).currentCount,
                      limit := (getCurrentConcurrency st).limit })

/-- decrementConcurrency: atomic UpdateItem with condition
current_count > 0 decrementing by one; on
ConditionalCheckFailedException (count already 0, or no item) nothing is
written and a literal status of count 0 with the DEFAULT limit is
returned. -/
def decrementConcurrency (st : Option TenantRow) :
    Option TenantRow × ConcurrencyStatus :=
  match st with
  | none =>
      (none, mkStatus 0 DEFAULT_CONCURRENCY_LIMIT)
  | some row =>
      if 0 < row.currentCount then
        (some { currentCount := row.currentCount - 1,
                concurrencyLimit := row.concurrencyLimit },
         mkStatus (row.currentCount - 1) row.concurrencyLimit)
      else
        (st, mkStatus 0 DEFAULT_CONCURRENCY_LIMIT)

/-- acquireConcurrencySlot merely logs and delegates to
incrementConcurrency. -/
def acquireConcurrencySlot (st : Option TenantRow) (concurrencyLimit : Option Int) :
    Option TenantRow × Except LimitExceeded ConcurrencyStatus :=
  incrementConcurrency st concurrencyLimit

/-- releaseConcurrencySlot merely logs and delegates to
decrementConcurrency. -/
def releaseConcurrencySlot (st : Option TenantRow) :
    Option TenantRow × ConcurrencyStatus :=
  decrementConcurrency st

/-- One call against the tenant's concurrency item. -/
inductive ConcOp where
  | acquire (concurrencyLimit : Option Int)
  | release
deriving Repr, DecidableEq

/-- State reached after one call (the thrown-error path of acquire
leaves the item untouched). -/
def stepConc (st : Option TenantRow) : ConcOp → Option TenantRow
  | .acquire l => (incrementConcurrency st l).1
  | .release => (decrementConcurrency st).1

/-- Table state after a sequence of acquire/release calls for one
tenant, starting from no item. -/
def runConc (ops : List ConcOp) : Option TenantRow :=
  ops.foldl stepConc none

/-- A call is well-formed when any explicitly requested limit is
nonnegative (the API never passes negative limits). -/
def opLimitNonneg : ConcOp → Bool
  | .acquire (some l) => decide (0 ≤ l)
  | _ => true

/-- The count recorded for the tenant, 0 when no item exists. -/
def countOf : Option TenantRow → Int
  | none => 0
  | some row => row.currentCount

/-- Invariant: whenever the item exists, its count lies in
[0, concurrencyLimit]. -/
def countInRange (st : Option TenantRow) : Prop :=
  ∀ row, st = some row → 0 ≤ row.currentCount ∧ row.currentCount ≤ row.concurrencyLimit

/-! ### Processing orchestrator (src/workers/processing-orchestrator.ts)

The orchestrator touches the tenant's concurrency item and one
processing_jobs row (matched by document/version/jobType, which are
fixed throughout a run and therefore left implicit).  Timestamps NOW()
are supplied as an explicit `now` parameter.  A database UPDATE that the
runtime may fail is modelled by an explicit boolean failure flag; a
failing UPDATE leaves the row unchanged and the error propagates. -/

inductive JobStatus where
  | PENDING | RUNNING | COMPLETED | FAILED
deriving Repr, DecidableEq

structure JobRow where
  status : JobStatus
  attempts : Int
  startedAt : Option Nat
  completedAt : Option Nat
  errorMessage : Option String
deriving Repr, DecidableEq

structure OrchState where
  tenant : Option TenantRow
  job : JobRow
deriving Repr, DecidableEq

inductive ProcStatus where
  | ACCEPTED | QUEUED | REJECTED
deriving Repr, DecidableEq

structure ProcessingResponse where
  status : ProcStatus
  concurrencyStatus : Option ConcurrencyStatus
  reason : Option String
deriving Repr, DecidableEq

/-- Errors that can escape the orchestrator functions. -/
inductive OrchError where
  | limitExceeded (currentCount limit : Int)
  | dbError
  | opError
deriving Repr, DecidableEq

/-- enforceAndStartProcessing: acquire a slot; on success UPDATE the job
to RUNNING with started_at = NOW() and return ACCEPTED with the slot
status; on ConcurrencyLimitExceededError UPDATE the job to PENDING with
attempts = attempts + 1 and return QUEUED with a reason naming the
limit.  `runningUpdateThrows` injects a failure of the RUNNING UPDATE
statement: the catch clause rethrows any error that is not a
ConcurrencyLimitExceededError, leaving the already-incremented
concurrency count in place. -/
def enforceAndStartProcessing (runningUpdateThrows : Bool) (now : Nat)
    (concurrencyLimit : Option Int) (s : OrchState) :
    OrchState × Except OrchError ProcessingResponse :=
  match acquireConcurrencySlot s.tenant concurrencyLimit with
  | (tenant2, .ok cs) =>
      if runningUpdateThrows then
        ({ s with tenant := tenant2 }, .error .dbError)
      else
        ({ tenant := tenant2,
           job := { s.job with status := .RUNNING, startedAt := some now } },
         .ok { status := .ACCEPTED, concurrencyStatus := some cs, reason := none })
  | (tenant2, .error e) =>
      ({ tenant := tenant2,
         job := { s.job with status := .PENDING, attempts := s.job.attempts + 1 } },
       .ok { status := .QUEUED, concurrencyStatus := none,
             reason := some ("Tenant concurrency limit reached (" ++ toString e.limit
                              ++ "). Task will retry.") })

/-- completeProcessing: release the slot, then UPDATE the job to
COMPLETED (success) or FAILED with completed_at = NOW(). -/
def completeProcessing (now : Nat) (success : Bool) (s : OrchState) :
    OrchState × ConcurrencyStatus :=
  let (tenant2, cs) := releaseConcurrencySlot s.tenant
  ({ tenant := tenant2,
     job := { s.job with
              status := if success then .COMPLETED else .FAILED,
              completedAt := some now } },
   cs)

/-- handleProcessingFailure: release the slot, then UPDATE the job to
FAILED with the error message and completed_at = NOW(). -/
def handleProcessingFailure (now : Nat) (msg : String) (s : OrchState) : OrchState :=
  let (tenant2, _) := releaseConcurrencySlot s.tenant
  { tenant := tenant2,
    job := { s.job with
             status := .FAILED, errorMessage := some msg,
             completedAt := some now } }

/-- executeWithConcurrencyEnforcement: run enforceAndStartProcessing; a
QUEUED response is converted into a thrown ConcurrencyLimitExceededError
(with the response's absent concurrencyStatus defaulting both numbers to
0); otherwise the wrapped operation runs, followed by completeProcessing
on success or handleProcessingFailure on an operation exception.
`opThrows` injects an exception from the wrapped operation. -/
def executeWithConcurrencyEnforcement (runningUpdateThrows opThrows : Bool)
    (now : Nat) (concurrencyLimit : Option Int) (s : OrchState) :
    OrchState × Except OrchError Unit :=
  match enforceAndStartProcessing runningUpdateThrows now concurrencyLimit s with
  | (s1, .error e) => (s1, .error e)
  | (s1, .ok resp) =>
      if resp.status = .QUEUED then
        (s1, .error (.limitExceeded
          (match resp.concurrencyStatus with | some cs => cs.currentCount | none => 0)
          (match resp.concurrencyStatus with | some cs => cs.limit | none => 0)))
      else
        if opThrows then
          (handleProcessingFailure now "operation failed" s1, .error .opError)
        else
          ((completeProcessing now true s1).1, .ok ())

/-- True when the tenant's item exists and its count has reached the
limit, i.e. the conditional acquire will be denied. -/
def atCapacity : Option TenantRow → Bool
  | none => false
  | some row => decide (¬ row.currentCount < row.concurrencyLimit)

/-- Status reported by a successful acquire on state `st`. -/
def acquiredStatus (st : Option TenantRow) (concurrencyLimit : Option Int) :
    ConcurrencyStatus :=
  match st with
  | none => mkStatus 1 (effectiveLimit concurrencyLimit)
  | some row => mkStatus (row.currentCount + 1) row.concurrencyLimit

/-! ### Delete-document API handler (src/api/delete-document.ts)

The handler looks the document up by id, then checks tenant ownership,
legal hold and current status in that order before soft-deleting.
Timestamps are abstract `Nat` instants. -/

inductive DocStatus where
  | UPLOADING | UPLOADED | PROCESSING | READY | FAILED | DELETED | DELETING
deriving Repr, DecidableEq

structure DocRow where
  tenantId : String
  status : DocStatus
  legalHold : Bool
  deletedAt : Option Nat
deriving Repr, DecidableEq

inductive DeleteResult where
  | notFound
  | forbidden (msg : String)
  | conflict (msg : String)
  | softDeleted
deriving Repr, DecidableEq

/-- The delete-document handler body, given the row the lookup returned
(none when no row with the requested id exists) and the caller's tenant.
The returned pair is (documents row after the request, outcome); every
thrown error leaves the row unchanged.  A successful request sets
status = DELETED and deleted_at = NOW(). -/
def deleteDocumentHandler (doc : Option DocRow) (authTenant : String) (now : Nat) :
    Option DocRow × DeleteResult :=
  match doc with
  | none => (none, .notFound)
  | some d =>
      if d.tenantId ≠ authTenant then
        (doc, .forbidden "Cannot delete document from different tenant")
      else if d.legalHold then
        (doc, .conflict "Cannot delete document with active legal hold")
      else if d.status = .DELETED ∨ d.status = .DELETING then
        (doc, .conflict "Document is already deleted or being deleted")
      else
        (some { d with status := .DELETED, deletedAt := some now }, .softDeleted)

/-! ### Hard-delete worker (src/workers/hard-delete-worker.ts)

The worker state carries the object store (a list of keys) and the four
relational tables.  S3 ListObjectsV2 pages are modelled with an explicit
page size (1000, the S3 maximum and default MaxKeys); the do/while loop
on the continuation token is modelled by fuel-indexed recursion, with
fuel `keys.length + 1`, which always suffices because every iteration
that reports a continuation token removes at least one key. -/

structure HDDoc where
  id : String
  tenantId : String
  status : DocStatus
deriving Repr, DecidableEq

structure HDVersion where
  id : String
  documentId : String
deriving Repr, DecidableEq

structure HDJob where
  id : String
  documentId : String
deriving Repr, DecidableEq

structure HDAudit where
  id : String
  documentId : Option String
deriving Repr, DecidableEq

structure WorldState where
  s3Keys : List String
  documents : List HDDoc
  documentVersions : List HDVersion
  processingJobs : List HDJob
  auditLogs : List HDAudit
deriving Repr, DecidableEq

structure HardDeleteMessage where
  documentId : String
  tenantId : String
deriving Repr, DecidableEq

inductive HDError where
  | s3Error
deriving Repr, DecidableEq

/-- Statements issued inside the hard-delete transaction, in order. -/
inductive TxStmt where
  | deleteProcessingJobs (documentId : String)
  | deleteDocumentVersions (documentId : String)
  | deleteDocument (documentId : String)
deriving Repr, DecidableEq

/-- A key lies under a prefix when the prefix's characters start the
key's characters (the S3 prefix match). -/
def strIsPrefixOf (pfx k : String) : Bool :=
  decide (pfx.toList <+: k.toList)

/-- One ListObjectsV2 page: up to `pageSize` keys under `pfx`, plus a
NextContinuationToken flag set when more matching keys remain. -/
def listPage (keys : List String) (pfx : String) (pageSize : Nat) :
    List String × Bool :=
  let matching := keys.filter (fun k => strIsPrefixOf pfx k)
  (matching.take pageSize, decide (pageSize < matching.length))

/-- The do/while loop of deleteObjectsWithPrefix: list a page, issue a
DeleteObjects call for it, repeat while a continuation token remains. -/
def deletePagesGo (pfx : String) (pageSize : Nat) : Nat → List String → List String
  | 0, keys => keys
  | fuel + 1, keys =>
      let page := (listPage keys pfx pageSize).1
      let token := (listPage keys pfx pageSize).2
      let keys2 := keys.filter (fun k => !page.contains k)
      if token then deletePagesGo pfx pageSize fuel keys2 else keys2

/-- deleteObjectsWithPrefix with the S3 page size of 1000. -/
def deleteAllUnder (pfx : String) (keys : List String) : List String :=
  deletePagesGo pfx 1000 (keys.length + 1) keys

/-- deleteS3Objects: remove every object under the document prefix and
then under the derived prefix.  `s3Fails` injects an object-storage
failure, which propagates before anything else happens. -/
def deleteS3Objects (s3Fails : Bool) (tenantId documentId : String)
    (keys : List String) : Except HDError (List String) :=
  if s3Fails then .error .s3Error
  else
    let pfx := tenantId ++ "/documents/" ++ documentId ++ "/"
    let derivedPfx := tenantId ++ "/derived/" ++ documentId ++ "/"
    .ok (deleteAllUnder derivedPfx (deleteAllUnder pfx keys))

/-- processMessage: reload the document by (id, tenant); missing or not
DELETING is a no-op; otherwise delete the S3 objects and then run one
transaction deleting processing_jobs, document_versions and the
documents row, in that order.  The result carries the world after the
call together with either the transaction statements issued (in order)
or the propagated error; a thrown object-storage error prevents the
transaction from running, leaving every table unchanged. -/
def processMessage (s3Fails : Bool) (msg : HardDeleteMessage) (w : WorldState) :
    WorldState × Except HDError (List TxStmt) :=
  match w.documents.find? (fun d => d.id == msg.documentId && d.tenantId == msg.tenantId) with
  | none => (w, .ok [])
  | some doc =>
      if doc.status ≠ .DELETING then (w, .ok [])
      else
        match deleteS3Objects s3Fails msg.tenantId msg.documentId w.s3Keys with
        | .error e => (w, .error e)
        | .ok keys2 =>
            ({ w with
               s3Keys := keys2,
               processingJobs := w.processingJobs.filter
                 (fun j => j.documentId != msg.documentId),
               documentVersions := w.documentVersions.filter
                 (fun v => v.documentId != msg.documentId),
               documents := w.documents.filter
                 (fun d => d.id != msg.documentId) },
             .ok [.deleteProcessingJobs msg.documentId,
                  .deleteDocumentVersions msg.documentId,
                  .deleteDocument msg.documentId])

/-! ### Retention enforcement (src/workers/retention-enforcement.ts)

The scheduled handler selects documents with
status = DELETED AND deleted_at IS NOT NULL AND legal_hold = false AND
NOW() - deleted_at > (retention_days days), then, for each, updates that
document's status to DELETING.  Timestamps are `Int` milliseconds. -/

def MS_PER_DAY : Int := 86400000

structure RetDoc where
  id : String
  tenantId : String
  status : DocStatus
  legalHold : Bool
  deletedAt : Option Int
  retentionDays : Int
deriving Repr, DecidableEq

structure RetWorld where
  documents : List RetDoc
  hardDeleteQueue : List HardDeleteMessage
deriving Repr, DecidableEq

/-- Row predicate of the retention SELECT. -/
def retentionPred (now : Int) (d : RetDoc) : Bool :=
  d.status == .DELETED &&
  d.deletedAt.isSome &&
  !d.legalHold &&
  (match d.deletedAt with
   | some t => decide (now - t > d.retentionDays * MS_PER_DAY)
   | none => false)

/-- Result set of the retention SELECT. -/
def retentionSelect (now : Int) (docs : List RetDoc) : List RetDoc :=
  docs.filter (retentionPred now)

/-- The retention-enforcement handler: every selected document receives
UPDATE documents SET status = DELETING WHERE id = doc.id.  Nothing is
written to the hard-delete queue by this handler. -/
def retentionEnforcementHandler (now : Int) (w : RetWorld) : RetWorld :=
  let expired := retentionSelect now w.documents
  { w with documents := w.documents.map (fun d =>
      if expired.any (fun e => e.id == d.id) then { d with status := .DELETING }
      else d) }

/-! ### Retry policy (shared retry utility module)

Thrown errors carry a name and a message; an error is retryable when any
configured error type is a substring of either.  The wrapped operation
is modelled as a function from the attempt number (1-based) to its
outcome on that attempt. -/

structure RetryConfig where
  maxAttempts : Nat
  baseDelayMs : Int
  maxDelayMs : Option Int
  retryableErrors : List String
deriving Repr, DecidableEq

def DEFAULT_RETRY_CONFIG : RetryConfig :=
  { maxAttempts := 5,
    baseDelayMs := 1000,
    maxDelayMs := some 16000,
    retryableErrors :=
      ["NetworkError", "TimeoutError", "ServiceUnavailable",
       "ThrottlingException", "TooManyRequestsException", "InternalServerError"] }

/-- calculateExponentialBackoff: baseDelay * 2^(attempt - 1), clamped to
maxDelayMs when that is set; the JavaScript truthiness test makes an
explicit 0 behave like an absent maxDelayMs. -/
def calculateExponentialBackoff (attempt : Nat) (baseDelayMs : Int)
    (maxDelayMs : Option Int) : Int :=
  let delay := baseDelayMs * 2 ^ (attempt - 1)
  match maxDelayMs with
  | some m => if m = 0 then delay else min delay m
  | none => delay

structure ErrInfo where
  name : String
  message : String
deriving Repr, DecidableEq

/-- isRetryableError: some configured error type occurs as a substring
(String.includes) of the error's name or message; substring containment
is expressed on the character lists. -/
def isRetryableError (e : ErrInfo) (retryableErrors : Option (List String)) : Bool :=
  let errors := retryableErrors.getD DEFAULT_RETRY_CONFIG.retryableErrors
  errors.any (fun et =>
    decide (et.toList <:+: e.name.toList) || decide (et.toList <:+: e.message.toList))

/-- Loop body of retryWithExponentialBackoff, from attempt number
`attempt` with `fuel` loop iterations remaining (`fuel` starts at
maxAttempts, so the fuel-exhausted branch is the code's unreachable
fallback throw after the for loop).  Returns the outcome, the number of
invocations of the operation, and the list of backoff delays slept. -/
def retryAux {T : Type} (op : Nat → Except ErrInfo T) (cfg : RetryConfig) :
    Nat → Nat → Except ErrInfo T × Nat × List Int
  | _, 0 =>
      (.error { name := "Error", message := "Retry failed with unknown error" }, 0, [])
  | attempt, fuel + 1 =>
      match op attempt with
      | .ok v => (.ok v, 1, [])
      | .error e =>
          let retryable := isRetryableError e (some cfg.retryableErrors)
          let isLastAttempt := attempt == cfg.maxAttempts
          if isLastAttempt || !retryable then
            (.error e, 1, [])
          else
            let delayMs := calculateExponentialBackoff attempt cfg.baseDelayMs cfg.maxDelayMs
            let r := retryAux op cfg (attempt + 1) fuel
            (r.1, r.2.1 + 1, delayMs :: r.2.2)

/-- retryWithExponentialBackoff with an already-merged configuration
(the Partial-config spread over DEFAULT_RETRY_CONFIG happens at the
TypeScript level; calls with no overrides use DEFAULT_RETRY_CONFIG). -/
def retryWithExponentialBackoff {T : Type} (op : Nat → Except ErrInfo T)
    (cfg : RetryConfig) : Except ErrInfo T × Nat × List Int :=
  retryAux op cfg 1 cfg.maxAttempts

/-! ### Task routing (src/shared/task-routing.ts)

Sizes, page counts and durations are JavaScript numbers; they are
modelled as rationals, which is exact for the divisions by 2^20 and the
small integer multiplications involved.  LAMBDA is the bounded
environment, FARGATE the unbounded one. -/

inductive JobType where
  | OCR | THUMBNAIL | PDF_SPLIT | MALWARE_SCAN
deriving Repr, DecidableEq

inductive WorkerType where
  | LAMBDA | FARGATE
deriving Repr, DecidableEq

structure TaskMetadata where
  jobType : JobType
  fileSizeBytes : Option ℚ
  pageCount : Option ℚ
deriving DecidableEq

def LAMBDA_TIMEOUT_MS : ℚ := 15 * 60 * 1000

def LARGE_FILE_THRESHOLD_BYTES : ℚ := 50 * 1024 * 1024

def LARGE_PAGE_COUNT_THRESHOLD : ℚ := 100

/-- estimateTaskDuration in milliseconds; absent metadata fields default
to 0 by destructuring. -/
def estimateTaskDuration (m : TaskMetadata) : ℚ :=
  let fileSizeBytes := m.fileSizeBytes.getD 0
  let pageCount := m.pageCount.getD 0
  match m.jobType with
  | .THUMBNAIL => max 5000 (fileSizeBytes / (1024 * 1024) * 2000)
  | .OCR => max 10000 (pageCount * 5000)
  | .PDF_SPLIT => max 5000 (pageCount * 1000)
  | .MALWARE_SCAN => max 10000 (fileSizeBytes / (1024 * 1024) * 3000)

structure TaskRoutingDecision where
  workerType : WorkerType
  estimatedDurationMs : ℚ
deriving DecidableEq

/-- routeTask: rule 1 picks LAMBDA when the estimate is under the Lambda
timeout; rules 2 and 3 override to FARGATE for a file over 50 MB or a
page count over 100; rule 4 overrides to FARGATE for malware scans.
The human-readable reason string is not modelled. -/
def routeTask (m : TaskMetadata) : TaskRoutingDecision :=
  let estimatedDurationMs := estimateTaskDuration m
  let fileSizeBytes := m.fileSizeBytes.getD 0
  let pageCount := m.pageCount.getD 0
  let w1 : WorkerType :=
    if estimatedDurationMs < LAMBDA_TIMEOUT_MS then .LAMBDA else .FARGATE
  let w2 := if fileSizeBytes > LARGE_FILE_THRESHOLD_BYTES then .FARGATE else w1
  let w3 := if pageCount > LARGE_PAGE_COUNT_THRESHOLD then .FARGATE else w2
  let w4 := if m.jobType = .MALWARE_SCAN then .FARGATE else w3
  { workerType := w4, estimatedDurationMs := estimatedDurationMs }

/-! ## Theorems -/

/-- Claim C10: an acquire with an explicit concurrencyLimit of 0 behaves
exactly as if no limit were supplied (the JavaScript || replaces the
falsy 0 with the default limit 10): on every table state the two calls
agree, and for a fresh tenant the acquire with requested limit 0
succeeds, storing limit 10 rather than denying admission, so a limit of
zero cannot be enforced through this interface. -/
theorem acquire_zero_limit_uses_default :
    (∀ st, incrementConcurrency st (some 0) = incrementConcurrency st none) ∧
    incrementConcurrency none (some 0) =
      (some { currentCount := 1, concurrencyLimit := 10 },
       .ok (mkStatus 1 10)) := by
  constructor
  · intro st
    cases st <;> rfl
  · rfl

/-- Claim C8 (counterexample): on a tenant item whose stored limit is 5
and whose count is 0, release is a no-op but reports count 0 with the
DEFAULT limit 10, which is not the tenant's current state (count 0,
limit 5, available 5). -/
theorem release_at_zero_default_limit_counterexample :
    decrementConcurrency (some { currentCount := 0, concurrencyLimit := 5 }) =
      (some { currentCount := 0, concurrencyLimit := 5 }, mkStatus 0 10) ∧
    getCurrentConcurrency (some { currentCount := 0, concurrencyLimit := 5 }) =
      mkStatus 0 5 ∧
    mkStatus 0 10 ≠ mkStatus 0 5 := by
  refine ⟨rfl, rfl, ?_⟩
  decide

/-- Claim C8 (amended): release on a tenant with currentCount == 0 is a
no-op that does not error and never makes the count negative; it returns
count 0 with the DEFAULT limit 10 (not the tenant's stored limit). -/
theorem release_at_zero_noop_nonnegative (row : TenantRow) (st : Option TenantRow)
    (h : row.currentCount = 0) (hst : 0 ≤ countOf st) :
    decrementConcurrency (some row) =
      (some row, mkStatus 0 DEFAULT_CONCURRENCY_LIMIT) ∧
    0 ≤ countOf (decrementConcurrency st).1 := by
  constructor
  · simp [decrementConcurrency, h]
  · cases st with
    | none => simp [decrementConcurrency, countOf]
    | some r =>
        by_cases hr : 0 < r.currentCount
        · simp only [decrementConcurrency, if_pos hr, countOf]
          omega
        · simp only [decrementConcurrency, if_neg hr, countOf]
          exact hst

/-- Witness for C8's amended theorem at a tenant with stored limit 7 and
count 0, and a second state with count 3 for the nonnegativity part. -/
theorem release_at_zero_noop_nonnegative_witness :
    decrementConcurrency (some { currentCount := 0, concurrencyLimit := 7 }) =
      (some { currentCount := 0, concurrencyLimit := 7 },
       mkStatus 0 DEFAULT_CONCURRENCY_LIMIT) ∧
    0 ≤ countOf (decrementConcurrency
      (some { currentCount := 3, concurrencyLimit := 5 })).1 :=
  release_at_zero_noop_nonnegative
    { currentCount := 0, concurrencyLimit := 7 }
    (some { currentCount := 3, concurrencyLimit := 5 }) rfl (by decide)

/-- Claim C3: for a delete-document request on an existing document of
the caller's tenant, legalHold = true is rejected with ConflictError
regardless of status; without a hold, status DELETED or DELETING is
rejected with ConflictError; every rejection leaves the row unchanged;
otherwise the row gets status = DELETED and deletedAt stamped. -/
theorem delete_document_handler_spec (d : DocRow) (t : String) (now : Nat)
    (ht : d.tenantId = t) :
    (d.legalHold = true →
      deleteDocumentHandler (some d) t now =
        (some d, .conflict "Cannot delete document with active legal hold")) ∧
    (d.legalHold = false → (d.status = .DELETED ∨ d.status = .DELETING) →
      deleteDocumentHandler (some d) t now =
        (some d, .conflict "Document is already deleted or being deleted")) ∧
    (d.legalHold = false → ¬ d.status = .DELETED → ¬ d.status = .DELETING →
      deleteDocumentHandler (some d) t now =
        (some { d with status := .DELETED, deletedAt := some now }, .softDeleted)) := by
  refine ⟨?_, ?_, ?_⟩
  · intro hl
    simp [deleteDocumentHandler, ht, hl]
  · intro hl hs
    simp [deleteDocumentHandler, ht, hl, hs]
  · intro hl h1 h2
    have hs : ¬ (d.status = .DELETED ∨ d.status = .DELETING) := by
      intro hc
      cases hc with
      | inl hc => exact h1 hc
      | inr hc => exact h2 hc
    simp [deleteDocumentHandler, ht, hl, hs]

/-- Witness for C3 on three concrete documents of tenant t1: one under
legal hold, one already DELETED, one READY without a hold. -/
theorem delete_document_handler_spec_witness :
    deleteDocumentHandler
        (some { tenantId := "t1", status := .READY, legalHold := true,
                deletedAt := none }) "t1" 9 =
      (some { tenantId := "t1", status := .READY, legalHold := true,
              deletedAt := none },
       .conflict "Cannot delete document with active legal hold") ∧
    deleteDocumentHandler
        (some { tenantId := "t1", status := .DELETED, legalHold := false,
                deletedAt := some 2 }) "t1" 9 =
      (some { tenantId := "t1", status := .DELETED, legalHold := false,
              deletedAt := some 2 },
       .conflict "Document is already deleted or being deleted") ∧
    deleteDocumentHandler
        (some { tenantId := "t1", status := .READY, legalHold := false,
                deletedAt := none }) "t1" 9 =
      (some { tenantId := "t1", status := .DELETED, legalHold := false,
              deletedAt := some 9 }, .softDeleted) :=
  ⟨(delete_document_handler_spec
      { tenantId := "t1", status := .READY, legalHold := true, deletedAt := none }
      "t1" 9 rfl).1 rfl,
   (delete_document_handler_spec
      { tenantId := "t1", status := .DELETED, legalHold := false, deletedAt := some 2 }
      "t1" 9 rfl).2.1 rfl (Or.inl rfl),
   (delete_document_handler_spec
      { tenantId := "t1", status := .READY, legalHold := false, deletedAt := none }
      "t1" 9 rfl).2.2 rfl (by decide) (by decide)⟩

/-- A nonnegative requested limit yields an effective limit of at least 1
(0 and the absent case both map to the default 10). -/
lemma one_le_effectiveLimit {l : Option Int} (hl : opLimitNonneg (.acquire l) = true) :
    1 ≤ effectiveLimit l := by
  cases l with
  | none => decide
  | some x =>
      simp only [opLimitNonneg, decide_eq_true_eq] at hl
      by_cases hx : x = 0
      · simp [effectiveLimit, hx]
        decide
      · simp [effectiveLimit, hx]
        omega

/-- One acquire or release call preserves the count-in-range invariant
when its requested limit is nonnegative. -/
lemma countInRange_step {st : Option TenantRow} {op : ConcOp}
    (h : countInRange st) (hop : opLimitNonneg op = true) :
    countInRange (stepConc st op) := by
  cases op with
  | acquire l =>
      cases st with
      | none =>
          intro row hrow
          simp only [stepConc, incrementConcurrency] at hrow
          injection hrow with hrow
          subst hrow
          refine ⟨by norm_num, ?_⟩
          simpa using one_le_effectiveLimit hop
      | some r =>
          intro row hrow
          have hr := h r rfl
          simp only [stepConc, incrementConcurrency] at hrow
          by_cases hc : r.currentCount < r.concurrencyLimit
          · rw [if_pos hc] at hrow
            injection hrow with hrow
            subst hrow
            constructor <;> simp <;> omega
          · rw [if_neg hc] at hrow
            injection hrow with hrow
            subst hrow
            exact hr
  | release =>
      cases st with
      | none =>
          intro row hrow
          simp [stepConc, decrementConcurrency] at hrow
      | some r =>
          intro row hrow
          have hr := h r rfl
          simp only [stepConc, decrementConcurrency] at hrow
          by_cases hc : 0 < r.currentCount
          · rw [if_pos hc] at hrow
            injection hrow with hrow
            subst hrow
            constructor <;> simp <;> omega
          · rw [if_neg hc] at hrow
            injection hrow with hrow
            subst hrow
            exact hr

/-- The invariant holds along any fold of well-formed calls. -/
lemma countInRange_foldl (ops : List ConcOp) :
    ∀ st, countInRange st → (∀ op ∈ ops, opLimitNonneg op = true) →
      countInRange (ops.foldl stepConc st) := by
  induction ops with
  | nil => intro st h _; simpa using h
  | cons op rest ih =>
      intro st h hops
      simp only [List.foldl_cons]
      exact ih (stepConc st op) (countInRange_step h (hops op (by simp)))
        (fun o ho => hops o (by simp [ho]))

/-- Claim C1: along every sequence of acquire/release calls for one
tenant (with nonnegative requested limits), the stored count stays in
[0, limit]; an acquire attempted when the count is not strictly below
the limit leaves the item unchanged and throws
ConcurrencyLimitExceededError carrying that count and limit, so no
acquire ever succeeds when the count equals the limit. -/
theorem admission_controller_count_bounds (ops : List ConcOp)
    (hops : ∀ op ∈ ops, opLimitNonneg op = true) :
    countInRange (runConc ops) ∧
    (∀ (row : TenantRow) (lim : Option Int),
      ¬ row.currentCount < row.concurrencyLimit →
      incrementConcurrency (some row) lim =
        (some row,
         .error { currentCount := row.currentCount,
                  limit := row.concurrencyLimit })) := by
  constructor
  · exact countInRange_foldl ops none (fun row hrow => by simp at hrow) hops
  · intro row lim hfull
    simp [incrementConcurrency, hfull, getCurrentConcurrency, mkStatus]

/-- Witness for C1 on the trace acquire(2), acquire(2), release. -/
theorem admission_controller_count_bounds_witness :
    countInRange (runConc [.acquire (some 2), .acquire (some 2), .release]) :=
  (admission_controller_count_bounds
    [.acquire (some 2), .acquire (some 2), .release] (by decide)).1

/-- Claim C2 (counterexample): starting from a fresh tenant, when the
UPDATE setting the job to RUNNING throws after the slot was acquired,
executeWithConcurrencyEnforcement propagates the error with the tenant
count left at 1 instead of its pre-call value 0: the acquired slot is
not released on this exit path. -/
theorem enforcement_wrapper_leak_counterexample :
    executeWithConcurrencyEnforcement true false 7 none
        { tenant := none,
          job := { status := .PENDING, attempts := 0, startedAt := none,
                   completedAt := none, errorMessage := none } } =
      ({ tenant := some { currentCount := 1, concurrencyLimit := 10 },
         job := { status := .PENDING, attempts := 0, startedAt := none,
                  completedAt := none, errorMessage := none } },
       .error .dbError) ∧
    countOf (some { currentCount := 1, concurrencyLimit := 10 }) ≠
      countOf (none : Option TenantRow) := by
  refine ⟨rfl, ?_⟩
  decide

/-- Claim C2 (amended): provided the RUNNING status update after
acquisition does not itself throw, executeWithConcurrencyEnforcement
restores the tenant's count on every exit path — operation success,
operation exception, and admission denial (where nothing was acquired);
when that upstream UPDATE throws, the slot leaks (see the
counterexample). -/
theorem enforcement_wrapper_release_paths (s : OrchState) (now : Nat)
    (lim : Option Int) (opThrows : Bool) (h : 0 ≤ countOf s.tenant) :
    countOf (executeWithConcurrencyEnforcement false opThrows now lim s).1.tenant
      = countOf s.tenant := by
  cases hst : s.tenant with
  | none =>
      cases opThrows <;>
        simp [executeWithConcurrencyEnforcement, enforceAndStartProcessing,
          acquireConcurrencySlot, incrementConcurrency, hst, completeProcessing,
          handleProcessingFailure, releaseConcurrencySlot, decrementConcurrency,
          countOf]
  | some row =>
      rw [hst] at h
      simp only [countOf] at h
      by_cases hc : row.currentCount < row.concurrencyLimit
      · have hrel : (0 : Int) < row.currentCount + 1 := by omega
        cases opThrows <;>
          simp [executeWithConcurrencyEnforcement, enforceAndStartProcessing,
            acquireConcurrencySlot, incrementConcurrency, hst, hc,
            completeProcessing, handleProcessingFailure, releaseConcurrencySlot,
            decrementConcurrency, hrel, countOf]
      · cases opThrows <;>
          simp [executeWithConcurrencyEnforcement, enforceAndStartProcessing,
            acquireConcurrencySlot, incrementConcurrency, hst, hc, countOf]

/-- Witness for C2's amended theorem: a tenant holding 1 of 3 slots,
with the wrapped operation throwing. -/
theorem enforcement_wrapper_release_paths_witness :
    countOf (executeWithConcurrencyEnforcement false true 4 none
      { tenant := some { currentCount := 1, concurrencyLimit := 3 },
        job := { status := .PENDING, attempts := 0, startedAt := none,
                 completedAt := none, errorMessage := none } }).1.tenant
      = countOf (some { currentCount := 1, concurrencyLimit := 3 }) :=
  enforcement_wrapper_release_paths
    { tenant := some { currentCount := 1, concurrencyLimit := 3 },
      job := { status := .PENDING, attempts := 0, startedAt := none,
               completedAt := none, errorMessage := none } }
    4 none true (by decide)

/-- Claim C7: a denied stage invocation sets the job to PENDING with
attempts incremented and returns QUEUED with a reason naming the limit;
an acquired one sets the job to RUNNING with a start timestamp and
returns ACCEPTED with the slot status; complete(success) releases the
slot and sets the job to COMPLETED or FAILED with a completion
timestamp. -/
theorem orchestrator_stage_transitions (s : OrchState) (now : Nat)
    (lim : Option Int) (success : Bool) :
    (atCapacity s.tenant = true →
      enforceAndStartProcessing false now lim s =
        ({ tenant := s.tenant,
           job := { s.job with status := .PENDING, attempts := s.job.attempts + 1 } },
         .ok { status := .QUEUED, concurrencyStatus := none,
               reason := some ("Tenant concurrency limit reached ("
                 ++ toString (getCurrentConcurrency s.tenant).limit
                 ++ "). Task will retry.") })) ∧
    (atCapacity s.tenant = false →
      enforceAndStartProcessing false now lim s =
        ({ tenant := (incrementConcurrency s.tenant lim).1,
           job := { s.job with status := .RUNNING, startedAt := some now } },
         .ok { status := .ACCEPTED,
               concurrencyStatus := some (acquiredStatus s.tenant lim),
               reason := none })) ∧
    (completeProcessing now success s).1.tenant = (decrementConcurrency s.tenant).1 ∧
    (completeProcessing now success s).1.job =
      { s.job with status := if success then .COMPLETED else .FAILED,
                   completedAt := some now } := by
  refine ⟨?_, ?_, ?_, ?_⟩
  · intro hcap
    cases hst : s.tenant with
    | none => rw [hst] at hcap; simp [atCapacity] at hcap
    | some row =>
        rw [hst] at hcap
        simp only [atCapacity, decide_eq_true_eq] at hcap
        simp [enforceAndStartProcessing, acquireConcurrencySlot,
          incrementConcurrency, hst, hcap, getCurrentConcurrency, mkStatus]
  · intro hcap
    cases hst : s.tenant with
    | none =>
        simp [enforceAndStartProcessing, acquireConcurrencySlot,
          incrementConcurrency, hst, acquiredStatus]
    | some row =>
        rw [hst] at hcap
        simp only [atCapacity, decide_eq_true_eq, not_not] at hcap
        replace hcap : row.currentCount < row.concurrencyLimit := by
          simpa using hcap
        simp [enforceAndStartProcessing, acquireConcurrencySlot,
          incrementConcurrency, hst, hcap, acquiredStatus]
  · simp [completeProcessing, releaseConcurrencySlot]
  · simp [completeProcessing, releaseConcurrencySlot]

/-- Witness for C7 at two concrete states: one at capacity (2 of 2
slots), one with free capacity (0 of 2). -/
theorem orchestrator_stage_transitions_witness :
    enforceAndStartProcessing false 5 none
        { tenant := some { currentCount := 2, concurrencyLimit := 2 },
          job := { status := .PENDING, attempts := 0, startedAt := none,
                   completedAt := none, errorMessage := none } } =
      ({ tenant := some { currentCount := 2, concurrencyLimit := 2 },
         job := { status := .PENDING, attempts := 1, startedAt := none,
                  completedAt := none, errorMessage := none } },
       .ok { status := .QUEUED, concurrencyStatus := none,
             reason := some "Tenant concurrency limit reached (2). Task will retry." }) ∧
    enforceAndStartProcessing false 5 none
        { tenant := some { currentCount := 0, concurrencyLimit := 2 },
          job := { status := .PENDING, attempts := 0, startedAt := none,
                   completedAt := none, errorMessage := none } } =
      ({ tenant := some { currentCount := 1, concurrencyLimit := 2 },
         job := { status := .RUNNING, attempts := 0, startedAt := some 5,
                  completedAt := none, errorMessage := none } },
       .ok { status := .ACCEPTED, concurrencyStatus := some (mkStatus 1 2),
             reason := none }) := by
  constructor
  · have := (orchestrator_stage_transitions
      { tenant := some { currentCount := 2, concurrencyLimit := 2 },
        job := { status := .PENDING, attempts := 0, startedAt := none,
                 completedAt := none, errorMessage := none } }
      5 none true).1 (by decide)
    simpa using this
  · have := (orchestrator_stage_transitions
      { tenant := some { currentCount := 0, concurrencyLimit := 2 },
        job := { status := .PENDING, attempts := 0, startedAt := none,
                 completedAt := none, errorMessage := none } }
      5 none true).2.1 (by decide)
    simpa using this

/-- Claim C5 (counterexample): a document soft-deleted 31 days ago under
a 30-day policy is selected and transitioned to DELETING, but the
retention handler enqueues nothing: the hard-delete queue stays empty
instead of receiving the work item claimed. -/
theorem retention_sweep_no_enqueue_counterexample :
    retentionSelect (31 * MS_PER_DAY)
        [{ id := "doc-1", tenantId := "tenant-1", status := .DELETED,
           legalHold := false, deletedAt := some 0, retentionDays := 30 }] =
      [{ id := "doc-1", tenantId := "tenant-1", status := .DELETED,
         legalHold := false, deletedAt := some 0, retentionDays := 30 }] ∧
    retentionEnforcementHandler (31 * MS_PER_DAY)
        { documents :=
            [{ id := "doc-1", tenantId := "tenant-1", status := .DELETED,
               legalHold := false, deletedAt := some 0, retentionDays := 30 }],
          hardDeleteQueue := [] } =
      { documents :=
          [{ id := "doc-1", tenantId := "tenant-1", status := .DELETING,
             legalHold := false, deletedAt := some 0, retentionDays := 30 }],
        hardDeleteQueue := [] } ∧
    ([] : List HardDeleteMessage) ≠
      [{ documentId := "doc-1", tenantId := "tenant-1" }] := by
  refine ⟨by decide, by decide, by decide⟩

/-- In a list of documents with pairwise-distinct ids, two members with
the same id are the same row. -/
lemma eq_of_mem_of_distinct_ids {l : List RetDoc}
    (hp : l.Pairwise (fun a b => a.id ≠ b.id)) {a b : RetDoc}
    (ha : a ∈ l) (hb : b ∈ l) (hid : a.id = b.id) : a = b := by
  induction l with
  | nil => simp at ha
  | cons x xs ih =>
      rcases List.pairwise_cons.mp hp with ⟨hx, hxs⟩
      rcases List.mem_cons.mp ha with ha1 | ha1 <;>
        rcases List.mem_cons.mp hb with hb1 | hb1
      · rw [ha1, hb1]
      · exact absurd hid (ha1 ▸ hx b hb1)
      · exact absurd hid.symm (hb1 ▸ hx a ha1)
      · exact ih hxs ha1 hb1

/-- Claim C5 (amended): the retention sweep selects exactly the
documents with status DELETED, deletedAt set, legalHold false and
now - deletedAt strictly greater than retentionDays days; each selected
document is transitioned to DELETING while every other document —
including those still within their retention window — is left unchanged;
the handler itself enqueues no hard-delete work item (the queue is
untouched). -/
theorem retention_sweep_select_and_transition (now : Int) (w : RetWorld)
    (hids : w.documents.Pairwise (fun a b => a.id ≠ b.id)) :
    (∀ d : RetDoc, d ∈ retentionSelect now w.documents ↔
        d ∈ w.documents ∧ d.status = .DELETED ∧ d.legalHold = false ∧
        ∃ t, d.deletedAt = some t ∧ now - t > d.retentionDays * MS_PER_DAY) ∧
    (retentionEnforcementHandler now w).hardDeleteQueue = w.hardDeleteQueue ∧
    (retentionEnforcementHandler now w).documents =
      w.documents.map (fun d =>
        if retentionPred now d then { d with status := .DELETING } else d) := by
  refine ⟨?_, rfl, ?_⟩
  · intro d
    rw [retentionSelect, List.mem_filter]
    constructor
    · rintro ⟨hmem, hpred⟩
      refine ⟨hmem, ?_⟩
      cases hda : d.deletedAt with
      | none => simp [retentionPred, hda] at hpred
      | some t =>
          simp only [retentionPred, hda, Option.isSome_some, Bool.and_true,
            Bool.and_eq_true, beq_iff_eq, Bool.not_eq_true', decide_eq_true_eq] at hpred
          exact ⟨by tauto, by tauto, t, rfl, by tauto⟩
    · rintro ⟨hmem, hs, hl, t, hda, ht⟩
      refine ⟨hmem, ?_⟩
      simp [retentionPred, hda, hs, hl, ht]
  · rw [retentionEnforcementHandler]
    refine List.map_congr_left ?_
    intro d hd
    by_cases hpred : retentionPred now d
    · have hmem : d ∈ retentionSelect now w.documents :=
        List.mem_filter.mpr ⟨hd, hpred⟩
      have hany : (retentionSelect now w.documents).any (fun e => e.id == d.id) = true :=
        List.any_eq_true.mpr ⟨d, hmem, by simp⟩
      simp [hany, hpred]
    · have hany : (retentionSelect now w.documents).any (fun e => e.id == d.id) = false := by
        rw [List.any_eq_false]
        intro e he
        rcases List.mem_filter.mp he with ⟨hemem, hepred⟩
        simp only [beq_iff_eq]
        intro heid
        exact hpred (eq_of_mem_of_distinct_ids hids hemem hd heid ▸ hepred)
      simp [hany, hpred]

/-- Witness for C5's amended theorem: two documents under a 30-day
policy, one deleted 31 days ago (promoted to DELETING) and one deleted
15 days ago (untouched); the queue stays empty. -/
theorem retention_sweep_select_and_transition_witness :
    (retentionEnforcementHandler (31 * MS_PER_DAY)
        { documents :=
            [{ id := "a", tenantId := "t1", status := .DELETED,
               legalHold := false, deletedAt := some 0, retentionDays := 30 },
             { id := "b", tenantId := "t1", status := .DELETED,
               legalHold := false, deletedAt := some (16 * MS_PER_DAY),
               retentionDays := 30 }],
          hardDeleteQueue := [] }).hardDeleteQueue = [] ∧
    (retentionEnforcementHandler (31 * MS_PER_DAY)
        { documents :=
            [{ id := "a", tenantId := "t1", status := .DELETED,
               legalHold := false, deletedAt := some 0, retentionDays := 30 },
             { id := "b", tenantId := "t1", status := .DELETED,
               legalHold := false, deletedAt := some (16 * MS_PER_DAY),
               retentionDays := 30 }],
          hardDeleteQueue := [] }).documents =
      [{ id := "a", tenantId := "t1", status := .DELETING,
         legalHold := false, deletedAt := some 0, retentionDays := 30 },
       { id := "b", tenantId := "t1", status := .DELETED,
         legalHold := false, deletedAt := some (16 * MS_PER_DAY),
         retentionDays := 30 }] := by
  have h := retention_sweep_select_and_transition (31 * MS_PER_DAY)
    { documents :=
        [{ id := "a", tenantId := "t1", status := .DELETED,
           legalHold := false, deletedAt := some 0, retentionDays := 30 },
         { id := "b", tenantId := "t1", status := .DELETED,
           legalHold := false, deletedAt := some (16 * MS_PER_DAY),
           retentionDays := 30 }],
      hardDeleteQueue := [] } (by decide)
  refine ⟨h.2.1, ?_⟩
  rw [h.2.2]
  decide

/-- Claim C6: with the default configuration the backoff delays for
attempts 1 through 5 are exactly 1000, 2000, 4000, 8000, 16000 ms; a
non-retryable error thrown on attempt 1 is rethrown with exactly one
invocation of the operation and no sleep; and an operation failing with
retryable errors exhausts the 5 attempts, sleeping 1000, 2000, 4000 and
8000 ms between them, and rethrows the attempt-5 error. -/
theorem retry_policy_backoff_and_termination {T : Type}
    (op : Nat → Except ErrInfo T) (e : ErrInfo)
    (h1 : op 1 = .error e)
    (h2 : isRetryableError e (some DEFAULT_RETRY_CONFIG.retryableErrors) = false) :
    ([1, 2, 3, 4, 5].map
        (fun a => calculateExponentialBackoff a DEFAULT_RETRY_CONFIG.baseDelayMs
          DEFAULT_RETRY_CONFIG.maxDelayMs) = [1000, 2000, 4000, 8000, 16000]) ∧
    retryWithExponentialBackoff op DEFAULT_RETRY_CONFIG = (.error e, 1, []) ∧
    (∀ (op2 : Nat → Except ErrInfo T) (err : Nat → ErrInfo),
      (∀ a, op2 a = .error (err a)) →
      (∀ a, 1 ≤ a → a < 5 →
        isRetryableError (err a) (some DEFAULT_RETRY_CONFIG.retryableErrors) = true) →
      retryWithExponentialBackoff op2 DEFAULT_RETRY_CONFIG =
        (.error (err 5), 5, [1000, 2000, 4000, 8000])) := by
  refine ⟨by decide, ?_, ?_⟩
  · have hmax : DEFAULT_RETRY_CONFIG.maxAttempts = 5 := rfl
    have step : retryAux op DEFAULT_RETRY_CONFIG 1 5 = (.error e, 1, []) := by
      simp [retryAux, hmax, h1, h2]
    simpa [retryWithExponentialBackoff, hmax] using step
  · intro op2 err hop2 hr
    have hmax : DEFAULT_RETRY_CONFIG.maxAttempts = 5 := rfl
    have hbase : DEFAULT_RETRY_CONFIG.baseDelayMs = 1000 := rfl
    have hmaxd : DEFAULT_RETRY_CONFIG.maxDelayMs = some 16000 := rfl
    have e1 : retryAux op2 DEFAULT_RETRY_CONFIG 1 5 =
        (.error (err 5), 5, [1000, 2000, 4000, 8000]) := by
      norm_num [retryAux, hmax, hbase, hmaxd, hop2,
        hr 1 (by norm_num) (by norm_num), hr 2 (by norm_num) (by norm_num),
        hr 3 (by norm_num) (by norm_num), hr 4 (by norm_num) (by norm_num),
        calculateExponentialBackoff, min_def]
    simpa [retryWithExponentialBackoff, hmax] using e1

/-- Witness for C6: a ValidationError (not in the retryable set) thrown
on attempt 1 yields exactly one invocation and no delays. -/
theorem retry_policy_backoff_and_termination_witness :
    retryWithExponentialBackoff
        (fun _ => .error { name := "ValidationError", message := "bad input" } :
          Nat → Except ErrInfo Unit)
        DEFAULT_RETRY_CONFIG =
      (.error { name := "ValidationError", message := "bad input" }, 1, []) :=
  (retry_policy_backoff_and_termination
    (fun _ => .error { name := "ValidationError", message := "bad input" })
    { name := "ValidationError", message := "bad input" }
    rfl (by decide)).2.1

/-- Claim C9: routeTask sends every MALWARE_SCAN job to the unbounded
environment (FARGATE) regardless of size, estimate or page count; any
job whose file size exceeds 50 MB or whose page count exceeds 100 also
goes to FARGATE regardless of estimate; otherwise the job runs in the
bounded environment (LAMBDA) exactly when its estimated duration is
under the 15-minute bounded timeout. -/
theorem route_task_rules (m : TaskMetadata) :
    (m.jobType = .MALWARE_SCAN → (routeTask m).workerType = .FARGATE) ∧
    (m.fileSizeBytes.getD 0 > LARGE_FILE_THRESHOLD_BYTES ∨
        m.pageCount.getD 0 > LARGE_PAGE_COUNT_THRESHOLD →
      (routeTask m).workerType = .FARGATE) ∧
    (m.jobType ≠ .MALWARE_SCAN →
      ¬ m.fileSizeBytes.getD 0 > LARGE_FILE_THRESHOLD_BYTES →
      ¬ m.pageCount.getD 0 > LARGE_PAGE_COUNT_THRESHOLD →
      ((routeTask m).workerType = .LAMBDA ↔
        estimateTaskDuration m < LAMBDA_TIMEOUT_MS)) := by
  refine ⟨?_, ?_, ?_⟩
  · intro h
    simp [routeTask, h]
  · intro h
    rcases h with h | h
    · by_cases hj : m.jobType = .MALWARE_SCAN <;>
        by_cases hp : m.pageCount.getD 0 > LARGE_PAGE_COUNT_THRESHOLD <;>
          simp [routeTask, h, hj, hp]
    · by_cases hj : m.jobType = .MALWARE_SCAN <;>
        simp [routeTask, h, hj]
  · intro hj hf hp
    by_cases he : estimateTaskDuration m < LAMBDA_TIMEOUT_MS <;>
      simp [routeTask, hj, hf, hp, he]

/-- Witness for C9: a malware scan of 1000 bytes routes to FARGATE, an
OCR job with pageCount 150 routes to FARGATE regardless of estimate, and
a 3 MB thumbnail (estimate 6 s) routes to LAMBDA. -/
theorem route_task_rules_witness :
    (routeTask { jobType := .MALWARE_SCAN, fileSizeBytes := some 1000,
                 pageCount := none }).workerType = .FARGATE ∧
    (routeTask { jobType := .OCR, fileSizeBytes := none,
                 pageCount := some 150 }).workerType = .FARGATE ∧
    (routeTask { jobType := .THUMBNAIL, fileSizeBytes := some (3 * 1024 * 1024),
                 pageCount := none }).workerType = .LAMBDA :=
  ⟨(route_task_rules
      { jobType := .MALWARE_SCAN, fileSizeBytes := some 1000, pageCount := none }).1
      rfl,
   (route_task_rules
      { jobType := .OCR, fileSizeBytes := none, pageCount := some 150 }).2.1
      (Or.inr (by norm_num [LARGE_PAGE_COUNT_THRESHOLD])),
   ((route_task_rules
      { jobType := .THUMBNAIL, fileSizeBytes := some (3 * 1024 * 1024),
        pageCount := none }).2.2
      (by decide)
      (by norm_num [LARGE_FILE_THRESHOLD_BYTES])
      (by norm_num [LARGE_PAGE_COUNT_THRESHOLD])).mpr
      (by norm_num [estimateTaskDuration, LAMBDA_TIMEOUT_MS])⟩

/-- Every key of a listed page carries the requested prefix. -/
lemma page_key_prefixed {keys : List String} {pfx k : String} {pageSize : Nat}
    (hk : k ∈ (listPage keys pfx pageSize).1) : strIsPrefixOf pfx k = true := by
  have hmem : k ∈ keys.filter (fun s => strIsPrefixOf pfx s) :=
    List.mem_of_mem_take (by simpa [listPage] using hk)
  exact (List.mem_filter.mp hmem).2

/-- Every key of a listed page comes from the listed key set. -/
lemma page_key_mem {keys : List String} {pfx k : String} {pageSize : Nat}
    (hk : k ∈ (listPage keys pfx pageSize).1) : k ∈ keys := by
  have hmem : k ∈ keys.filter (fun s => strIsPrefixOf pfx s) :=
    List.mem_of_mem_take (by simpa [listPage] using hk)
  exact (List.mem_filter.mp hmem).1

/-- With a positive page size and enough fuel, the paged deletion loop
removes exactly the keys under the prefix. -/
lemma deletePagesGo_eq_filter (pfx : String) (pageSize : Nat) (hps : 1 ≤ pageSize) :
    ∀ fuel keys, keys.length < fuel →
      deletePagesGo pfx pageSize fuel keys =
        keys.filter (fun k => !(strIsPrefixOf pfx k)) := by
  intro fuel
  induction fuel with
  | zero => intro keys h; omega
  | succ n ih =>
      intro keys hlen
      rw [deletePagesGo]
      by_cases htok : pageSize < (keys.filter (fun s => strIsPrefixOf pfx s)).length
      · have htok2 : (listPage keys pfx pageSize).2 = true := by
          simp [listPage, htok]
        rw [htok2, if_pos rfl]
        have hne : (listPage keys pfx pageSize).1 ≠ [] := by
          intro hcon
          have hlen0 : (listPage keys pfx pageSize).1.length = 0 := by
            rw [hcon]; rfl
          simp only [listPage, List.length_take] at hlen0
          omega
        obtain ⟨x, hx⟩ := List.exists_mem_of_ne_nil _ hne
        have hlt : (keys.filter
            (fun k => !((listPage keys pfx pageSize).1.contains k))).length
              < keys.length := by
          apply List.length_filter_lt_length_iff_exists.mpr
          refine ⟨x, page_key_mem hx, ?_⟩
          simp [hx]
        rw [ih _ (by omega), List.filter_filter]
        apply List.filter_congr
        intro k hk
        by_cases hpk : strIsPrefixOf pfx k
        · simp [hpk]
        · have hnotin : ¬ k ∈ (listPage keys pfx pageSize).1 := by
            intro hc
            exact hpk (page_key_prefixed hc)
          simp [hpk, hnotin]
      · have htok2 : (listPage keys pfx pageSize).2 = false := by
          simp [listPage]
          omega
        rw [htok2, if_neg (by simp)]
        have hpage : (listPage keys pfx pageSize).1 =
            keys.filter (fun s => strIsPrefixOf pfx s) := by
          simp only [listPage]
          exact List.take_of_length_le (by omega)
        apply List.filter_congr
        intro k hk
        rw [hpage]
        by_cases hpk : strIsPrefixOf pfx k
        · have hm : k ∈ keys.filter (fun s => strIsPrefixOf pfx s) :=
            List.mem_filter.mpr ⟨hk, hpk⟩
          simp [hpk, hm]
        · have hm : ¬ k ∈ keys.filter (fun s => strIsPrefixOf pfx s) := by
            intro hc
            exact hpk (List.mem_filter.mp hc).2
          simp [hpk, hm]

/-- deleteAllUnder removes exactly the keys under the prefix. -/
lemma deleteAllUnder_eq_filter (pfx : String) (keys : List String) :
    deleteAllUnder pfx keys = keys.filter (fun k => !(strIsPrefixOf pfx k)) :=
  deletePagesGo_eq_filter pfx 1000 (by norm_num) (keys.length + 1) keys (by omega)

/-- Claim C4: a hard-delete work item for a missing document, or one not
in DELETING status, is a no-op that modifies nothing (whether or not
object storage would fail); for a DELETING document, an object-storage
failure propagates with every table untouched, and otherwise every
object under the document and derived prefixes is removed (the paged
loop runs until no continuation token remains) and one transaction
deletes the ProcessingJob rows, then the DocumentVersion rows, then the
Document row, in that order, while audit_logs rows are never touched. -/
theorem hard_delete_worker_spec (w : WorldState) (msg : HardDeleteMessage) :
    (w.documents.find?
        (fun d => d.id == msg.documentId && d.tenantId == msg.tenantId) = none →
      ∀ b, processMessage b msg w = (w, .ok [])) ∧
    (∀ doc, w.documents.find?
        (fun d => d.id == msg.documentId && d.tenantId == msg.tenantId) = some doc →
      doc.status ≠ .DELETING →
      ∀ b, processMessage b msg w = (w, .ok [])) ∧
    (∀ doc, w.documents.find?
        (fun d => d.id == msg.documentId && d.tenantId == msg.tenantId) = some doc →
      doc.status = .DELETING →
      processMessage true msg w = (w, .error .s3Error) ∧
      processMessage false msg w =
        ({ s3Keys := w.s3Keys.filter (fun k =>
             !(strIsPrefixOf (msg.tenantId ++ "/derived/" ++ msg.documentId ++ "/") k) &&
             !(strIsPrefixOf (msg.tenantId ++ "/documents/" ++ msg.documentId ++ "/") k)),
           documents := w.documents.filter (fun d => d.id != msg.documentId),
           documentVersions := w.documentVersions.filter
             (fun v => v.documentId != msg.documentId),
           processingJobs := w.processingJobs.filter
             (fun j => j.documentId != msg.documentId),
           auditLogs := w.auditLogs },
         .ok [.deleteProcessingJobs msg.documentId,
              .deleteDocumentVersions msg.documentId,
              .deleteDocument msg.documentId])) := by
  refine ⟨?_, ?_, ?_⟩
  · intro hfind b
    simp [processMessage, hfind]
  · intro doc hfind hstatus b
    simp [processMessage, hfind, hstatus]
  · intro doc hfind hstatus
    constructor
    · simp [processMessage, hfind, hstatus, deleteS3Objects]
    · simp only [processMessage, hfind, hstatus, deleteS3Objects,
        deleteAllUnder_eq_filter, List.filter_filter, ne_eq, not_true_eq_false,
        if_false, Bool.false_eq_true, reduceIte]

/-- Witness for C4 on a concrete world holding two documents, their
versions, jobs, S3 objects and one audit row; document d1 of tenant t1
is in DELETING status. -/
theorem hard_delete_worker_spec_witness :
    processMessage true { documentId := "d1", tenantId := "t1" }
        { s3Keys := ["t1/documents/d1/a", "t1/derived/d1/t.jpg",
                     "t1/documents/d2/a", "x/y"],
          documents := [{ id := "d1", tenantId := "t1", status := .DELETING },
                        { id := "d2", tenantId := "t1", status := .READY }],
          documentVersions := [{ id := "v1", documentId := "d1" },
                               { id := "v2", documentId := "d2" }],
          processingJobs := [{ id := "j1", documentId := "d1" },
                             { id := "j2", documentId := "d2" }],
          auditLogs := [{ id := "a1", documentId := some "d1" }] } =
      ({ s3Keys := ["t1/documents/d1/a", "t1/derived/d1/t.jpg",
                    "t1/documents/d2/a", "x/y"],
         documents := [{ id := "d1", tenantId := "t1", status := .DELETING },
                       { id := "d2", tenantId := "t1", status := .READY }],
         documentVersions := [{ id := "v1", documentId := "d1" },
                              { id := "v2", documentId := "d2" }],
         processingJobs := [{ id := "j1", documentId := "d1" },
                            { id := "j2", documentId := "d2" }],
         auditLogs := [{ id := "a1", documentId := some "d1" }] },
       .error .s3Error) ∧
    processMessage false { documentId := "d1", tenantId := "t1" }
        { s3Keys := ["t1/documents/d1/a", "t1/derived/d1/t.jpg",
                     "t1/documents/d2/a", "x/y"],
          documents := [{ id := "d1", tenantId := "t1", status := .DELETING },
                        { id := "d2", tenantId := "t1", status := .READY }],
          documentVersions := [{ id := "v1", documentId := "d1" },
                               { id := "v2", documentId := "d2" }],
          processingJobs := [{ id := "j1", documentId := "d1" },
                             { id := "j2", documentId := "d2" }],
          auditLogs := [{ id := "a1", documentId := some "d1" }] } =
      ({ s3Keys := ["t1/documents/d2/a", "x/y"],
         documents := [{ id := "d2", tenantId := "t1", status := .READY }],
         documentVersions := [{ id := "v2", documentId := "d2" }],
         processingJobs := [{ id := "j2", documentId := "d2" }],
         auditLogs := [{ id := "a1", documentId := some "d1" }] },
       .ok [.deleteProcessingJobs "d1", .deleteDocumentVersions "d1",
            .deleteDocument "d1"]) := by
  have h := (hard_delete_worker_spec
    { s3Keys := ["t1/documents/d1/a", "t1/derived/d1/t.jpg",
                 "t1/documents/d2/a", "x/y"],
      documents := [{ id := "d1", tenantId := "t1", status := .DELETING },
                    { id := "d2", tenantId := "t1", status := .READY }],
      documentVersions := [{ id := "v1", documentId := "d1" },
                           { id := "v2", documentId := "d2" }],
      processingJobs := [{ id := "j1", documentId := "d1" },
                         { id := "j2", documentId := "d2" }],
      auditLogs := [{ id := "a1", documentId := some "d1" }] }
    { documentId := "d1", tenantId := "t1" }).2.2
    { id := "d1", tenantId := "t1", status := .DELETING } rfl rfl
  refine ⟨h.1, ?_⟩
  rw [h.2]
  rfl

end DMS
